import Mathlib

/-!
Shallow embedding of the btc poller (src/src/main.rs): a loop that fetches
buy/sell/spot quotes from the Coinbase API, aggregates them into one
line-protocol record and submits it to an InfluxDB write endpoint.

Modelling conventions:
- Rust u64/u32 arithmetic is modelled on Nat; an operation that panics in
  Rust (division by zero, unsigned underflow followed by the failing
  Duration/Instant construction) is modelled as an Option returning none.
- f32 amounts are modelled as rationals; the concrete values in the claims
  are exactly representable in f32 and render identically.
- HTTP and JSON I/O is modelled by explicit response values fed to the
  pure decoding and control-flow functions translated from the source.
-/

/-- Scheduler wait computation from main.rs line 104:
wait = (interval - ((seconds + interval) % interval)) % 60.
Rust panics when interval = 0 (remainder by zero); that fault is the
none case. The u64 subtraction never underflows when interval is nonzero,
because (seconds + interval) % interval < interval, so Nat subtraction
agrees with the source there. -/
def alignWait (interval s : Nat) : Option Nat :=
  if interval = 0 then none
  else some ((interval - (s + interval) % interval) % 60)

/-- Start-instant delay from main.rs lines 105-107:
Duration::new(wait - 1, 1_000_000_000 - nanos) added to Instant::now()
with checked_add and expect. When wait = 0 the u64 subtraction wait - 1
underflows (panic in debug; in release the wrapped value makes
Duration::new or checked_add fail, and expect panics), and when
nanos > 1_000_000_000 the u32 subtraction underflows; both faults are the
none case. Otherwise the delay in nanoseconds is
(wait - 1) * 1e9 + (1e9 - nanos). -/
def startDelayNs (wait nanos : Nat) : Option Nat :=
  if wait = 0 ∨ 1000000000 < nanos then none
  else some ((wait - 1) * 1000000000 + (1000000000 - nanos))

/-- Helper: the aligned wait lands s + wait on a multiple of the interval. -/
lemma alignWait_multiple (interval s : Nat)
    (h1 : 1 ≤ interval) (h2 : interval ≤ 60) (h3 : s < 60) :
    (s + (interval - (s + interval) % interval) % 60) % interval = 0 := by
  have hmod : (s + interval) % interval = s % interval := Nat.add_mod_right s interval
  have hm : s % interval < interval := Nat.mod_lt _ (by omega)
  have hdm : interval * (s / interval) + s % interval = s := Nat.div_add_mod s interval
  rw [hmod]
  rcases Nat.lt_or_ge (interval - s % interval) 60 with hlt | hge
  · rw [Nat.mod_eq_of_lt hlt]
    have : s + (interval - s % interval) = interval * (s / interval + 1) := by
      rw [Nat.mul_add, Nat.mul_one]
      omega
    rw [this, Nat.mul_mod_right]
  · -- interval - s % interval ≥ 60 forces interval = 60 and s % interval = 0,
    -- hence s = 0 and the wait is 0.
    have hi60 : interval = 60 := by omega
    have hm0 : s % interval = 0 := by omega
    have hs0 : s = 0 := by
      subst hi60
      rwa [Nat.mod_eq_of_lt h3] at hm0
    subst hi60
    subst hs0
    simp

/-- C1: for every interval in [1,60] and every seconds-within-minute
s in [0,59], the computed wait satisfies 0 ≤ wait < 60, s + wait is a
multiple of the interval (so the first fire, which the code places exactly
wait - 1 whole seconds plus the remaining nanoseconds to the next whole
second from now, lands on the whole second s + wait of the timeline), and
every subsequent fixed-period fire s + wait + k * interval is again a
multiple of the interval. -/
theorem scheduler_alignment (interval s nanos : Nat)
    (h1 : 1 ≤ interval) (h2 : interval ≤ 60) (h3 : s < 60) :
    ∃ w, alignWait interval s = some w ∧
      w < 60 ∧
      (s + w) % interval = 0 ∧
      (∀ k, (s + w + k * interval) % interval = 0) ∧
      (∀ d, startDelayNs w nanos = some d →
        s * 1000000000 + nanos + d = (s + w) * 1000000000) := by
  have hiz : interval ≠ 0 := by omega
  refine ⟨(interval - (s + interval) % interval) % 60, by simp [alignWait, hiz], ?_, ?_, ?_, ?_⟩
  · exact Nat.mod_lt _ (by omega)
  · exact alignWait_multiple interval s h1 h2 h3
  · intro k
    calc (s + (interval - (s + interval) % interval) % 60 + k * interval) % interval
        = (s + (interval - (s + interval) % interval) % 60) % interval :=
          Nat.add_mul_mod_self_right _ _ _
      _ = 0 := alignWait_multiple interval s h1 h2 h3
  · intro d hd
    simp only [startDelayNs] at hd
    split at hd
    · simp at hd
    · rename_i hcond
      push_neg at hcond
      obtain ⟨hw0, hnan⟩ := hcond
      simp only [Option.some.injEq] at hd
      omega

/-- Witness for scheduler_alignment at interval 30, s 45, nanos 123. -/
theorem scheduler_alignment_witness :
    ∃ w, alignWait 30 45 = some w ∧
      w < 60 ∧
      (45 + w) % 30 = 0 ∧
      (∀ k, (45 + w + k * 30) % 30 = 0) ∧
      (∀ d, startDelayNs w 123 = some d →
        45 * 1000000000 + 123 + d = (45 + w) * 1000000000) :=
  scheduler_alignment 30 45 123 (by decide) (by decide) (by decide)

/-- C2 counterexample: the start-time computation is not free of arithmetic
faults for every u64 interval. At interval = 0 the remainder
(seconds + interval) % interval divides by zero (alignWait = none); at
interval = 60 with s = 0, and likewise at interval = 120 with s = 0, the
computed wait is 0, so the u64 subtraction wait - 1 underflows and the
start-instant construction fails (startDelayNs 0 = none). -/
theorem scheduler_arith_counterexample :
    alignWait 0 0 = none ∧
    alignWait 60 0 = some 0 ∧
    alignWait 120 0 = some 0 ∧
    startDelayNs 0 500000000 = none := by
  decide

/-- C2 amended: for every interval in [1,60] that does not put the current
second exactly on an interval boundary of a 60-divisible interval (i.e.
excluding interval = 60 with s ≡ 0 mod 60, where wait = 0), and every
nanosecond reading at most 1e9, the computation is fault-free: the modulus
divisor is nonzero, wait ≥ 1 so wait - 1 does not underflow, and
1_000_000_000 - nanos does not underflow, yielding the concrete delay
(wait - 1) * 1e9 + (1e9 - nanos). -/
theorem scheduler_arith_safe (interval s nanos : Nat)
    (h1 : 1 ≤ interval) (h2 : interval ≤ 60)
    (h3 : interval = 60 → s % 60 ≠ 0) (h4 : nanos ≤ 1000000000) :
    ∃ w, alignWait interval s = some w ∧ 1 ≤ w ∧
      startDelayNs w nanos = some ((w - 1) * 1000000000 + (1000000000 - nanos)) := by
  have hiz : interval ≠ 0 := by omega
  refine ⟨(interval - (s + interval) % interval) % 60, by simp [alignWait, hiz], ?_⟩
  have hmod : (s + interval) % interval = s % interval := Nat.add_mod_right s interval
  have hm : s % interval < interval := Nat.mod_lt _ (by omega)
  have hw1 : 1 ≤ (interval - (s + interval) % interval) % 60 := by
    rw [hmod]
    rcases Nat.lt_or_ge interval 60 with hlt | hge
    · rw [Nat.mod_eq_of_lt (by omega)]
      omega
    · have hi60 : interval = 60 := by omega
      subst hi60
      have hs60 : s % 60 ≠ 0 := h3 rfl
      rw [Nat.mod_eq_of_lt (by omega)]
      omega
  refine ⟨hw1, ?_⟩
  simp only [startDelayNs]
  rw [if_neg (by omega)]

/-- Witness for scheduler_arith_safe at interval 30, s 45, nanos 0. -/
theorem scheduler_arith_safe_witness :
    ∃ w, alignWait 30 45 = some w ∧ 1 ≤ w ∧
      startDelayNs w 0 = some ((w - 1) * 1000000000 + (1000000000 - 0)) :=
  scheduler_arith_safe 30 45 0 (by decide) (by decide) (by omega) (by decide)

/-- PriceData from main.rs lines 40-48. The three f32 amounts are modelled
as rationals; the timestamp is the unix-seconds value that
self.timestamp.timestamp() yields in Display. -/
structure PriceData where
  source : String
  asset : String
  currency : String
  buy : ℚ
  sell : ℚ
  spot : ℚ
  timestamp : Int
deriving DecidableEq

/-- Decimal digits of the fractional part rem / den (with rem < den), most
significant first, stopping when the remainder is exhausted; fuel bounds
the recursion. -/
def fracDigits : Nat → Nat → Nat → List Char
  | 0, _, _ => []
  | fuel + 1, rem, den =>
    if rem = 0 then []
    else Char.ofNat (48 + rem * 10 / den) :: fracDigits fuel (rem * 10 % den) den

/-- Rendering of an f32 value as Rust Display prints it, for values whose
shortest round-trip decimal is their exact finite decimal expansion (all
amounts in the claims are such values): the integer part, then, when the
fractional part is nonzero, a dot and the fractional digits with no
trailing zeros; integral values print with no dot (Rust prints 50010, not
50010.0). The rational is taken apart into its numerator and reduced
denominator. -/
def fmtF32 (q : ℚ) : String :=
  let sign := if q.num < 0 then "-" else ""
  let n : Nat := q.num.natAbs
  let ip := n / q.den
  let ds := fracDigits 64 (n % q.den) q.den
  sign ++ toString ip ++ (if ds.isEmpty then "" else "." ++ String.mk ds)

/-- Display for PriceData from main.rs lines 58-72: the format string
is "\x7b\x7d,source=\x7b\x7d,currency=\x7b\x7d buy=\x7b\x7d,sell=\x7b\x7d,spot=\x7b\x7d \x7b\x7d"
applied to asset, source, currency, buy, sell, spot, timestamp. -/
def fmtPriceData (pd : PriceData) : String :=
  pd.asset ++ ",source=" ++ pd.source ++ ",currency=" ++ pd.currency ++
    " buy=" ++ fmtF32 pd.buy ++ ",sell=" ++ fmtF32 pd.sell ++
    ",spot=" ++ fmtF32 pd.spot ++ " " ++ toString pd.timestamp

example : fmtF32 (mkRat 100001 2) = "50000.5" := by decide
example : fmtF32 (mkRat 199801 4) = "49950.25" := by decide
example : fmtF32 (mkRat 50010 1) = "50010" := by decide

/-- C3: formatting the record with asset BTC, source Coinbase, currency
GBP, buy 50000.5, sell 49950.25, spot 50010.0, timestamp 1700000000 yields
exactly the claimed line; and in general the formatter renders asset, the
source and currency tags, the buy, sell, spot fields and the unix-seconds
timestamp in that fixed order. -/
theorem priceData_display :
    fmtPriceData
      { source := "Coinbase", asset := "BTC", currency := "GBP",
        buy := mkRat 100001 2, sell := mkRat 199801 4, spot := mkRat 50010 1,
        timestamp := 1700000000 } =
      "BTC,source=Coinbase,currency=GBP buy=50000.5,sell=49950.25,spot=50010 1700000000" ∧
    ∀ pd : PriceData,
      fmtPriceData pd =
        pd.asset ++ ",source=" ++ pd.source ++ ",currency=" ++ pd.currency ++
          " buy=" ++ fmtF32 pd.buy ++ ",sell=" ++ fmtF32 pd.sell ++
          ",spot=" ++ fmtF32 pd.spot ++ " " ++ toString pd.timestamp := by
  constructor
  · decide
  · intro pd
    rfl

/-- PriceType from main.rs lines 34-38. -/
inductive PriceType where
  | Buy
  | Sell
  | Spot
deriving DecidableEq

/-- Display for PriceType from main.rs lines 74-86: the lowercase wire
word of each variant. -/
def PriceType.display : PriceType → String
  | .Buy => "buy"
  | .Sell => "sell"
  | .Spot => "spot"

/-- Request URL built in get_price, main.rs lines 163-166: the format
string is "https://api.coinbase.com/v2/prices/\x7b\x7d?currency=\x7b\x7d"
applied to the price type and the currency. -/
def priceUrl (typ : PriceType) (currency : String) : String :=
  "https://api.coinbase.com/v2/prices/" ++ typ.display ++ "?currency=" ++ currency

/-- Minimal JSON value model for the response bodies serde deserializes. -/
inductive Json where
  | str (s : String)
  | num (n : Int)
  | bool (b : Bool)
  | null
  | arr (elems : List Json)
  | obj (fields : List (String × Json))

/-- Lookup of a field inside the field list of a JSON object. -/
def lookupField : List (String × Json) → String → Option Json
  | [], _ => none
  | (k, v) :: rest, key => if k = key then some v else lookupField rest key

/-- Lookup of a field of a JSON value; none when the value is not an
object or lacks the field. -/
def Json.lookup : Json → String → Option Json
  | .obj fields, key => lookupField fields key
  | _, _ => none

/-- Price from main.rs lines 27-32: the deserialized inner object; only
the amount string is kept (base and currency are commented out in the
source, and serde ignores unknown fields). -/
structure Price where
  amount : String
deriving DecidableEq

/-- ApiResponse from main.rs lines 22-25: a top-level object with a data
field holding a Price. -/
structure ApiResponse where
  data : Price
deriving DecidableEq

/-- Serde deserialization of ApiResponse: the body must be a JSON object
with a field "data" that is an object with a string field "amount";
anything else is a deserialization error (none). -/
def deserializeApiResponse (j : Json) : Option ApiResponse :=
  match j.lookup "data" with
  | some d =>
    match d.lookup "amount" with
    | some (.str s) => some ⟨⟨s⟩⟩
    | _ => none
  | none => none

/-- FetchError: the two reqwest failure modes get_price can propagate —
the send call failing (network/transport) and the json call failing
(unreadable body or deserialization mismatch). -/
inductive FetchError where
  | network
  | decode
deriving DecidableEq

/-- HttpResult: what the send call yields — a transport error, or a
response with a status code and a body (none models a body that is not
readable as JSON at all). -/
inductive HttpResult where
  | netErr
  | response (status : Nat) (body : Option Json)

/-- get_price from main.rs lines 158-170, after the URL is built: the send
error propagates; otherwise response.json::<ApiResponse>() is attempted on
the body. The status code is never examined — the source has no
error_for_status or status check, so the body of any status is parsed. -/
def get_price (resp : HttpResult) : Except FetchError Price :=
  match resp with
  | .netErr => .error .network
  | .response _ body =>
    match body with
    | none => .error .decode
    | some j =>
      match deserializeApiResponse j with
      | none => .error .decode
      | some r => .ok r.data

/-- C6 counterexample: it is not true that every non-2xx response causes
the fetch to fail — get_price never inspects the status, so a 500 response
whose body still deserializes to an object with data.amount succeeds. -/
theorem get_price_counterexample :
    get_price (.response 500 (some (.obj [("data", .obj [("amount", .str "1.0")])]))) =
      .ok ⟨"1.0"⟩ := by
  rfl

/-- C6 amended: the fetch fails on network/transport failure and on every
response whose body does not deserialize to an object containing
data.amount (including an unreadable body); the status code is never
examined, so success depends only on the body shape: for every status, the
fetch succeeds with a price exactly when the body deserializes. -/
theorem get_price_failure_modes :
    get_price .netErr = .error .network ∧
    (∀ status : Nat, get_price (.response status none) = .error .decode) ∧
    (∀ status : Nat, ∀ j : Json, deserializeApiResponse j = none →
      get_price (.response status (some j)) = .error .decode) ∧
    (∀ status : Nat, ∀ j : Json, ∀ pr : Price,
      get_price (.response status (some j)) = .ok pr ↔
        deserializeApiResponse j = some ⟨pr⟩) := by
  refine ⟨rfl, fun _ => rfl, fun status j hj => ?_, fun status j pr => ?_⟩
  · simp [get_price, hj]
  · constructor
    · intro h
      cases hd : deserializeApiResponse j with
      | none => simp [get_price, hd] at h
      | some r =>
        simp [get_price, hd] at h
        rw [← h]
    · intro h
      simp [get_price, h]

/-- Witness for get_price_failure_modes: a body missing the amount field
fails, and the well-formed body of the counterexample succeeds. -/
theorem get_price_failure_modes_witness :
    get_price (.response 200 (some (.obj [("data", .obj [("base", .str "BTC")])]))) =
      .error .decode :=
  get_price_failure_modes.2.2.1 200 (.obj [("data", .obj [("base", .str "BTC")])]) rfl

/-- C10: the fetch URL for every price type and currency is exactly the
api base, "/v2/prices/", the lowercase wire word of the price type, and
"?currency=" followed by the currency; the wire mapping sends Buy, Sell,
Spot to "buy", "sell", "spot" and is injective. -/
theorem priceUrl_shape :
    (∀ c : String, priceUrl .Buy c = "https://api.coinbase.com/v2/prices/buy?currency=" ++ c) ∧
    (∀ c : String, priceUrl .Sell c = "https://api.coinbase.com/v2/prices/sell?currency=" ++ c) ∧
    (∀ c : String, priceUrl .Spot c = "https://api.coinbase.com/v2/prices/spot?currency=" ++ c) ∧
    PriceType.display .Buy = "buy" ∧
    PriceType.display .Sell = "sell" ∧
    PriceType.display .Spot = "spot" ∧
    ∀ t u : PriceType, t.display = u.display → t = u := by
  refine ⟨fun c => rfl, fun c => rfl, fun c => rfl, rfl, rfl, rfl, fun t u h => ?_⟩
  cases t <;> cases u <;> first | rfl | (exact absurd h (by decide))

/-- Witness for priceUrl_shape: the Buy URL for GBP, and injectivity
applied at Buy = Buy. -/
theorem priceUrl_shape_witness :
    priceUrl .Buy "GBP" = "https://api.coinbase.com/v2/prices/buy?currency=" ++ "GBP" :=
  priceUrl_shape.1 "GBP"

/-- InfluxConfig from main.rs lines 50-56 (token only feeds the static
Authorization header, which is outside the pure submit path). -/
structure InfluxConfig where
  host : String
  org : String
  bucket : String
deriving DecidableEq

/-- Write-endpoint URI built in submit_influx, main.rs lines 177-180: the
format string is "\x7b\x7d/api/v2/write?bucket=\x7b\x7d&org=\x7b\x7d&precision=s"
applied to host, bucket, org. -/
def influxUri (c : InfluxConfig) : String :=
  c.host ++ "/api/v2/write?bucket=" ++ c.bucket ++ "&org=" ++ c.org ++ "&precision=s"

/-- One POST request as sent by submit_influx: target URI and body. -/
structure SubmitEffect where
  uri : String
  body : String
deriving DecidableEq

/-- Outcome of submit_influx after the POST has been sent: Ok(()), or the
println plus panic that abruptly terminates the process. -/
inductive SubmitOutcome where
  | ok
  | panicked (diagnostic : String)
deriving DecidableEq

/-- submit_influx from main.rs lines 172-191: POST the formatted record to
the write URI, then return Ok(()) when the response status is 204 and
otherwise print "incorrect status" and panic. The status of the already
sent response is the argument. -/
def submit_influx (cfg : InfluxConfig) (pd : PriceData) (status : Nat) :
    SubmitEffect × SubmitOutcome :=
  (⟨influxUri cfg, fmtPriceData pd⟩,
    if status = 204 then .ok else .panicked "incorrect status")

/-- C5: submit_influx succeeds exactly when the sink status is 204; its
only side effect is the one POST of the formatted line to the write URI;
and on any other status (500 in particular) it prints the diagnostic
"incorrect status" and panics, terminating the process so that no further
ticks fire. -/
theorem submit_status_check (cfg : InfluxConfig) (pd : PriceData) (status : Nat) :
    ((submit_influx cfg pd status).2 = .ok ↔ status = 204) ∧
    (submit_influx cfg pd status).1 = ⟨influxUri cfg, fmtPriceData pd⟩ ∧
    (status ≠ 204 →
      (submit_influx cfg pd status).2 = .panicked "incorrect status") ∧
    (submit_influx cfg pd 500).2 = .panicked "incorrect status" := by
  refine ⟨?_, rfl, ?_, rfl⟩
  · constructor
    · intro h
      by_contra hne
      simp [submit_influx, hne] at h
    · intro h
      simp [submit_influx, h]
  · intro hne
    simp [submit_influx, hne]

/-- Witness for submit_status_check at an empty config, the zero record
and status 500. -/
theorem submit_status_check_witness :
    ((submit_influx ⟨"h", "o", "b"⟩
        ⟨"Coinbase", "BTC", "GBP", 0, 0, 0, 0⟩ 500).2 = .ok ↔ (500 : Nat) = 204) ∧
    (submit_influx ⟨"h", "o", "b"⟩ ⟨"Coinbase", "BTC", "GBP", 0, 0, 0, 0⟩ 500).1 =
      ⟨influxUri ⟨"h", "o", "b"⟩,
        fmtPriceData ⟨"Coinbase", "BTC", "GBP", 0, 0, 0, 0⟩⟩ ∧
    ((500 : Nat) ≠ 204 →
      (submit_influx ⟨"h", "o", "b"⟩
          ⟨"Coinbase", "BTC", "GBP", 0, 0, 0, 0⟩ 500).2 = .panicked "incorrect status") ∧
    (submit_influx ⟨"h", "o", "b"⟩
        ⟨"Coinbase", "BTC", "GBP", 0, 0, 0, 0⟩ 500).2 = .panicked "incorrect status" :=
  submit_status_check ⟨"h", "o", "b"⟩ ⟨"Coinbase", "BTC", "GBP", 0, 0, 0, 0⟩ 500

/-- TickError: the error kinds the loop body can propagate through the ?
operator, plus the panic inside submit_influx. -/
inductive TickError where
  | fetch (e : FetchError)
  | parseAmount
  | submitPanic
deriving DecidableEq

/-- Observable outcome of one loop iteration: the PriceData record built
(if control reached its construction), the POST requests sent, the lines
printed to stdout, and the error that aborted the iteration, if any. -/
structure TickResult where
  record : Option PriceData
  posts : List SubmitEffect
  printed : List String
  err : Option TickError
deriving DecidableEq

/-- try_join! over the three get_price futures, main.rs lines 136-140:
all-or-nothing — the triple of successes, or the error of a failed fetch
(the temporal order in which concurrent failures resolve is abstracted to
buy-sell-spot order; which error wins is irrelevant to the claims). -/
def try_join3 (a b c : Except FetchError Price) :
    Except FetchError (Price × Price × Price) :=
  match a with
  | .error e => .error e
  | .ok x =>
    match b with
    | .error e => .error e
    | .ok y =>
      match c with
      | .error e => .error e
      | .ok z => .ok (x, y, z)

/-- Loop body of main, main.rs lines 134-155: join the three fetches
(failures propagate via ?), parse the three amount strings in field order
buy, sell, spot (a parse failure propagates via ?), build the PriceData
with source "Coinbase", asset "BTC", the configured currency and the
timestamp taken once after the join, then either submit (dry_run off) or
println the record (dry_run on). parseF32 stands for str::parse::<f32>;
now stands for the single Utc::now() call after the join; sinkStatus is
the status the sink returns to the POST. -/
def tick (parseF32 : String → Option ℚ) (respBuy respSell respSpot : HttpResult)
    (now : Int) (currency : String) (dry_run : Bool) (cfg : InfluxConfig)
    (sinkStatus : Nat) : TickResult :=
  match try_join3 (get_price respBuy) (get_price respSell) (get_price respSpot) with
  | .error e => ⟨none, [], [], some (.fetch e)⟩
  | .ok (buy, sell, spot) =>
    match parseF32 buy.amount with
    | none => ⟨none, [], [], some .parseAmount⟩
    | some bv =>
      match parseF32 sell.amount with
      | none => ⟨none, [], [], some .parseAmount⟩
      | some sv =>
        match parseF32 spot.amount with
        | none => ⟨none, [], [], some .parseAmount⟩
        | some pv =>
          let pd : PriceData := ⟨"Coinbase", "BTC", currency, bv, sv, pv, now⟩
          if !dry_run then
            match submit_influx cfg pd sinkStatus with
            | (eff, .ok) => ⟨some pd, [eff], [], none⟩
            | (eff, .panicked d) => ⟨some pd, [eff], [d], some .submitPanic⟩
          else ⟨some pd, [], [fmtPriceData pd], none⟩

/-- Helper: try_join! yields the error of a failed branch and discards the
other results. -/
lemma try_join3_err (a b c : Except FetchError Price)
    (h : (∃ e, a = .error e) ∨ (∃ e, b = .error e) ∨ (∃ e, c = .error e)) :
    ∃ e, try_join3 a b c = .error e ∧
      (a = .error e ∨ b = .error e ∨ c = .error e) := by
  cases a with
  | error e => exact ⟨e, rfl, .inl rfl⟩
  | ok x =>
    cases b with
    | error e => exact ⟨e, rfl, .inr (.inl rfl)⟩
    | ok y =>
      cases c with
      | error e => exact ⟨e, rfl, .inr (.inr rfl)⟩
      | ok z =>
        rcases h with ⟨e, he⟩ | ⟨e, he⟩ | ⟨e, he⟩ <;> simp at he

/-- C4: if any one of the three concurrent fetches errors, the tick
produces zero PriceRecords, sends nothing, prints nothing, and propagates
a fetch error that is the error of one of the failed fetches; the other
results are discarded. -/
theorem tick_fetch_failure (parseF32 : String → Option ℚ)
    (rb rs rp : HttpResult) (now : Int) (currency : String) (dry_run : Bool)
    (cfg : InfluxConfig) (sinkStatus : Nat)
    (h : (∃ e, get_price rb = .error e) ∨ (∃ e, get_price rs = .error e) ∨
      (∃ e, get_price rp = .error e)) :
    (tick parseF32 rb rs rp now currency dry_run cfg sinkStatus).record = none ∧
    (tick parseF32 rb rs rp now currency dry_run cfg sinkStatus).posts = [] ∧
    (tick parseF32 rb rs rp now currency dry_run cfg sinkStatus).printed = [] ∧
    ∃ e, (tick parseF32 rb rs rp now currency dry_run cfg sinkStatus).err =
        some (.fetch e) ∧
      (get_price rb = .error e ∨ get_price rs = .error e ∨
        get_price rp = .error e) := by
  obtain ⟨e, hj, hw⟩ := try_join3_err _ _ _ h
  refine ⟨?_, ?_, ?_, e, ?_, hw⟩ <;> simp [tick, hj]

/-- Witness for tick_fetch_failure: the buy fetch hits a network error
while sell and spot succeed. -/
theorem tick_fetch_failure_witness :
    (tick (fun _ => some 1) .netErr
        (.response 200 (some (.obj [("data", .obj [("amount", .str "1.5")])])))
        (.response 200 (some (.obj [("data", .obj [("amount", .str "1.5")])])))
        1700000000 "GBP" false ⟨"h", "o", "b"⟩ 204).record = none ∧
    (tick (fun _ => some 1) .netErr
        (.response 200 (some (.obj [("data", .obj [("amount", .str "1.5")])])))
        (.response 200 (some (.obj [("data", .obj [("amount", .str "1.5")])])))
        1700000000 "GBP" false ⟨"h", "o", "b"⟩ 204).posts = [] ∧
    (tick (fun _ => some 1) .netErr
        (.response 200 (some (.obj [("data", .obj [("amount", .str "1.5")])])))
        (.response 200 (some (.obj [("data", .obj [("amount", .str "1.5")])])))
        1700000000 "GBP" false ⟨"h", "o", "b"⟩ 204).printed = [] ∧
    ∃ e, (tick (fun _ => some 1) .netErr
        (.response 200 (some (.obj [("data", .obj [("amount", .str "1.5")])])))
        (.response 200 (some (.obj [("data", .obj [("amount", .str "1.5")])])))
        1700000000 "GBP" false ⟨"h", "o", "b"⟩ 204).err = some (.fetch e) ∧
      (get_price .netErr = .error e ∨
        get_price (.response 200 (some (.obj [("data", .obj [("amount", .str "1.5")])]))) = .error e ∨
        get_price (.response 200 (some (.obj [("data", .obj [("amount", .str "1.5")])]))) = .error e) :=
  tick_fetch_failure (fun _ => some 1) .netErr
    (.response 200 (some (.obj [("data", .obj [("amount", .str "1.5")])])))
    (.response 200 (some (.obj [("data", .obj [("amount", .str "1.5")])])))
    1700000000 "GBP" false ⟨"h", "o", "b"⟩ 204 (.inl ⟨.network, rfl⟩)

/-- C7: when all three fetches succeed and all three amount strings parse,
the tick produces exactly one PriceRecord whose buy, sell and spot equal
the parsed values of the corresponding fetches, whose timestamp is the
single Utc::now() reading taken after all three fetches resolve, and whose
source is "Coinbase" and asset "BTC". -/
theorem tick_success_record (parseF32 : String → Option ℚ)
    (rb rs rp : HttpResult) (pb ps pp : Price) (bv sv pv : ℚ)
    (now : Int) (currency : String) (dry_run : Bool)
    (cfg : InfluxConfig) (sinkStatus : Nat)
    (hb : get_price rb = .ok pb) (hs : get_price rs = .ok ps)
    (hp : get_price rp = .ok pp)
    (hpb : parseF32 pb.amount = some bv) (hps : parseF32 ps.amount = some sv)
    (hpp : parseF32 pp.amount = some pv) :
    (tick parseF32 rb rs rp now currency dry_run cfg sinkStatus).record =
      some ⟨"Coinbase", "BTC", currency, bv, sv, pv, now⟩ := by
  simp only [tick, try_join3, hb, hs, hp, hpb, hps, hpp]
  cases dry_run with
  | true => rfl
  | false =>
    by_cases h204 : sinkStatus = 204 <;> simp [submit_influx, h204]

/-- Witness for tick_success_record: three well-formed 200 responses whose
amounts parse to 3/2. -/
theorem tick_success_record_witness :
    (tick (fun s => if s = "1.5" then some (mkRat 3 2) else none)
        (.response 200 (some (.obj [("data", .obj [("amount", .str "1.5")])])))
        (.response 200 (some (.obj [("data", .obj [("amount", .str "1.5")])])))
        (.response 200 (some (.obj [("data", .obj [("amount", .str "1.5")])])))
        1700000000 "GBP" true ⟨"h", "o", "b"⟩ 204).record =
      some ⟨"Coinbase", "BTC", "GBP", mkRat 3 2, mkRat 3 2, mkRat 3 2, 1700000000⟩ :=
  tick_success_record (fun s => if s = "1.5" then some (mkRat 3 2) else none)
    (.response 200 (some (.obj [("data", .obj [("amount", .str "1.5")])])))
    (.response 200 (some (.obj [("data", .obj [("amount", .str "1.5")])])))
    (.response 200 (some (.obj [("data", .obj [("amount", .str "1.5")])])))
    ⟨"1.5"⟩ ⟨"1.5"⟩ ⟨"1.5"⟩ (mkRat 3 2) (mkRat 3 2) (mkRat 3 2)
    1700000000 "GBP" true ⟨"h", "o", "b"⟩ 204
    rfl rfl rfl rfl rfl rfl

/-- C8: when all three fetches succeed but at least one amount string
fails to parse as a float, the tick fails exactly as a fetch failure does:
no record is formatted or submitted, nothing is printed, and the parse
error propagates. -/
theorem tick_parse_failure (parseF32 : String → Option ℚ)
    (rb rs rp : HttpResult) (pb ps pp : Price)
    (now : Int) (currency : String) (dry_run : Bool)
    (cfg : InfluxConfig) (sinkStatus : Nat)
    (hb : get_price rb = .ok pb) (hs : get_price rs = .ok ps)
    (hp : get_price rp = .ok pp)
    (hfail : parseF32 pb.amount = none ∨ parseF32 ps.amount = none ∨
      parseF32 pp.amount = none) :
    (tick parseF32 rb rs rp now currency dry_run cfg sinkStatus).record = none ∧
    (tick parseF32 rb rs rp now currency dry_run cfg sinkStatus).posts = [] ∧
    (tick parseF32 rb rs rp now currency dry_run cfg sinkStatus).printed = [] ∧
    (tick parseF32 rb rs rp now currency dry_run cfg sinkStatus).err =
      some .parseAmount := by
  rcases hfail with h | h | h
  · simp [tick, try_join3, hb, hs, hp, h]
  · cases hx : parseF32 pb.amount <;>
      simp [tick, try_join3, hb, hs, hp, hx, h]
  · cases hx : parseF32 pb.amount <;> cases hy : parseF32 ps.amount <;>
      simp [tick, try_join3, hb, hs, hp, hx, hy, h]

/-- Witness for tick_parse_failure: the sell amount string does not parse. -/
theorem tick_parse_failure_witness :
    (tick (fun s => if s = "1.5" then some (mkRat 3 2) else none)
        (.response 200 (some (.obj [("data", .obj [("amount", .str "1.5")])])))
        (.response 200 (some (.obj [("data", .obj [("amount", .str "abc")])])))
        (.response 200 (some (.obj [("data", .obj [("amount", .str "1.5")])])))
        1700000000 "GBP" false ⟨"h", "o", "b"⟩ 204).record = none ∧
    (tick (fun s => if s = "1.5" then some (mkRat 3 2) else none)
        (.response 200 (some (.obj [("data", .obj [("amount", .str "1.5")])])))
        (.response 200 (some (.obj [("data", .obj [("amount", .str "abc")])])))
        (.response 200 (some (.obj [("data", .obj [("amount", .str "1.5")])])))
        1700000000 "GBP" false ⟨"h", "o", "b"⟩ 204).posts = [] ∧
    (tick (fun s => if s = "1.5" then some (mkRat 3 2) else none)
        (.response 200 (some (.obj [("data", .obj [("amount", .str "1.5")])])))
        (.response 200 (some (.obj [("data", .obj [("amount", .str "abc")])])))
        (.response 200 (some (.obj [("data", .obj [("amount", .str "1.5")])])))
        1700000000 "GBP" false ⟨"h", "o", "b"⟩ 204).printed = [] ∧
    (tick (fun s => if s = "1.5" then some (mkRat 3 2) else none)
        (.response 200 (some (.obj [("data", .obj [("amount", .str "1.5")])])))
        (.response 200 (some (.obj [("data", .obj [("amount", .str "abc")])])))
        (.response 200 (some (.obj [("data", .obj [("amount", .str "1.5")])])))
        1700000000 "GBP" false ⟨"h", "o", "b"⟩ 204).err = some .parseAmount :=
  tick_parse_failure (fun s => if s = "1.5" then some (mkRat 3 2) else none)
    (.response 200 (some (.obj [("data", .obj [("amount", .str "1.5")])])))
    (.response 200 (some (.obj [("data", .obj [("amount", .str "abc")])])))
    (.response 200 (some (.obj [("data", .obj [("amount", .str "1.5")])])))
    ⟨"1.5"⟩ ⟨"abc"⟩ ⟨"1.5"⟩ 1700000000 "GBP" false ⟨"h", "o", "b"⟩ 204
    rfl rfl rfl (.inr (.inl rfl))

/-- C9: on a successful tick, dry-run mode sends no POST and prints the
formatted line instead; with dry-run off (and the sink answering 204) the
formatted line is POSTed to the write URI and nothing is printed. -/
theorem tick_dry_run_routing (parseF32 : String → Option ℚ)
    (rb rs rp : HttpResult) (pb ps pp : Price) (bv sv pv : ℚ)
    (now : Int) (currency : String) (cfg : InfluxConfig) (sinkStatus : Nat)
    (hb : get_price rb = .ok pb) (hs : get_price rs = .ok ps)
    (hp : get_price rp = .ok pp)
    (hpb : parseF32 pb.amount = some bv) (hps : parseF32 ps.amount = some sv)
    (hpp : parseF32 pp.amount = some pv) :
    (tick parseF32 rb rs rp now currency true cfg sinkStatus).posts = [] ∧
    (tick parseF32 rb rs rp now currency true cfg sinkStatus).printed =
      [fmtPriceData ⟨"Coinbase", "BTC", currency, bv, sv, pv, now⟩] ∧
    (tick parseF32 rb rs rp now currency true cfg sinkStatus).err = none ∧
    (tick parseF32 rb rs rp now currency false cfg 204).posts =
      [⟨influxUri cfg, fmtPriceData ⟨"Coinbase", "BTC", currency, bv, sv, pv, now⟩⟩] ∧
    (tick parseF32 rb rs rp now currency false cfg 204).printed = [] ∧
    (tick parseF32 rb rs rp now currency false cfg 204).err = none := by
  refine ⟨?_, ?_, ?_, ?_, ?_, ?_⟩ <;>
    simp [tick, try_join3, hb, hs, hp, hpb, hps, hpp, submit_influx]

/-- Witness for tick_dry_run_routing on three well-formed responses. -/
theorem tick_dry_run_routing_witness :
    (tick (fun s => if s = "1.5" then some (mkRat 3 2) else none)
        (.response 200 (some (.obj [("data", .obj [("amount", .str "1.5")])])))
        (.response 200 (some (.obj [("data", .obj [("amount", .str "1.5")])])))
        (.response 200 (some (.obj [("data", .obj [("amount", .str "1.5")])])))
        1700000000 "GBP" true ⟨"h", "o", "b"⟩ 204).posts = [] ∧
    (tick (fun s => if s = "1.5" then some (mkRat 3 2) else none)
        (.response 200 (some (.obj [("data", .obj [("amount", .str "1.5")])])))
        (.response 200 (some (.obj [("data", .obj [("amount", .str "1.5")])])))
        (.response 200 (some (.obj [("data", .obj [("amount", .str "1.5")])])))
        1700000000 "GBP" true ⟨"h", "o", "b"⟩ 204).printed =
      [fmtPriceData ⟨"Coinbase", "BTC", "GBP", mkRat 3 2, mkRat 3 2, mkRat 3 2, 1700000000⟩] ∧
    (tick (fun s => if s = "1.5" then some (mkRat 3 2) else none)
        (.response 200 (some (.obj [("data", .obj [("amount", .str "1.5")])])))
        (.response 200 (some (.obj [("data", .obj [("amount", .str "1.5")])])))
        (.response 200 (some (.obj [("data", .obj [("amount", .str "1.5")])])))
        1700000000 "GBP" true ⟨"h", "o", "b"⟩ 204).err = none ∧
    (tick (fun s => if s = "1.5" then some (mkRat 3 2) else none)
        (.response 200 (some (.obj [("data", .obj [("amount", .str "1.5")])])))
        (.response 200 (some (.obj [("data", .obj [("amount", .str "1.5")])])))
        (.response 200 (some (.obj [("data", .obj [("amount", .str "1.5")])])))
        1700000000 "GBP" false ⟨"h", "o", "b"⟩ 204).posts =
      [⟨influxUri ⟨"h", "o", "b"⟩,
        fmtPriceData ⟨"Coinbase", "BTC", "GBP", mkRat 3 2, mkRat 3 2, mkRat 3 2, 1700000000⟩⟩] ∧
    (tick (fun s => if s = "1.5" then some (mkRat 3 2) else none)
        (.response 200 (some (.obj [("data", .obj [("amount", .str "1.5")])])))
        (.response 200 (some (.obj [("data", .obj [("amount", .str "1.5")])])))
        (.response 200 (some (.obj [("data", .obj [("amount", .str "1.5")])])))
        1700000000 "GBP" false ⟨"h", "o", "b"⟩ 204).printed = [] ∧
    (tick (fun s => if s = "1.5" then some (mkRat 3 2) else none)
        (.response 200 (some (.obj [("data", .obj [("amount", .str "1.5")])])))
        (.response 200 (some (.obj [("data", .obj [("amount", .str "1.5")])])))
        (.response 200 (some (.obj [("data", .obj [("amount", .str "1.5")])])))
        1700000000 "GBP" false ⟨"h", "o", "b"⟩ 204).err = none :=
  tick_dry_run_routing (fun s => if s = "1.5" then some (mkRat 3 2) else none)
    (.response 200 (some (.obj [("data", .obj [("amount", .str "1.5")])])))
    (.response 200 (some (.obj [("data", .obj [("amount", .str "1.5")])])))
    (.response 200 (some (.obj [("data", .obj [("amount", .str "1.5")])])))
    ⟨"1.5"⟩ ⟨"1.5"⟩ ⟨"1.5"⟩ (mkRat 3 2) (mkRat 3 2) (mkRat 3 2)
    1700000000 "GBP" ⟨"h", "o", "b"⟩ 204
    rfl rfl rfl rfl rfl rfl
